import Mathlib

/-!
Shallow embedding of the Career Compass request pipeline:
the serverless Gateway (src/netlify/functions/gemini.ts, third variant,
whose constants and error mapping the specification describes), the
direct SDK service (src/services/geminiService.ts) and the fetch-based
Client Adapter (src/unnamed/part_001, first variant).  The external
generation capability is opaque: it is modelled as a behaviour value
(duration plus outcome) supplied to each embedded function.
-/

/-- JSON documents exchanged between the capability, the Gateway and the
Adapter, at the decoded level. -/
inductive JsonVal where
  | num (n : Int)
  | str (s : String)
  | boolean (b : Bool)
  | null
  | arr (xs : List JsonVal)
  | obj (fields : List (String × JsonVal))

/-- Profile.academics as read by the embedded code
(board, stream, subjects, marks). -/
structure Academics where
  board : String
  stream : String
  subjects : List String
  marks : Int
deriving DecidableEq

/-- Profile.interests. -/
structure Interests where
  primary : String
deriving DecidableEq

/-- Profile.location. -/
structure LocationPref where
  state : String
  anywhereInIndia : Bool
deriving DecidableEq

/-- The student profile (userData) carried by every request. -/
structure Profile where
  academics : Academics
  skills : List (String × Bool)
  interests : Interests
  location : LocationPref
deriving DecidableEq

/-- The text payload of a generateContent response: `missing` when
response.text (and the candidates fallback) is undefined or the empty
string, `doc v` when the text is valid JSON decoding to `v`, and
`garbage raw` when the text is nonempty but JSON.parse throws on it. -/
inductive GenText where
  | missing
  | doc (v : JsonVal)
  | garbage (raw : String)

/-- A resolved generateContent response. -/
structure GenResponse where
  text : GenText

/-- Settlement of the capability promise: resolved response or rejection
with an error message. -/
inductive CapOutcome where
  | ok (resp : GenResponse)
  | err (msg : String)

/-- One behaviour of the external capability: how long the promise takes
to settle and how it settles. -/
structure CapBehavior where
  durationMs : Nat
  outcome : CapOutcome

/-- Does the pattern occur at the head of the text? -/
def startsWithChars : List Char → List Char → Bool
  | [], _ => true
  | _ :: _, [] => false
  | a :: as, b :: bs => a == b && startsWithChars as bs

/-- Does the pattern occur anywhere in the text? -/
def hasSubChars (pat : List Char) : List Char → Bool
  | [] => pat.isEmpty
  | c :: cs => startsWithChars pat (c :: cs) || hasSubChars pat cs

/-- JS String.prototype.includes, used by the error mapping. -/
def containsStr (s pat : String) : Bool := hasSubChars pat.data s.data

/-- Field lookup in a decoded JSON object. -/
def lookupField (fields : List (String × JsonVal)) (key : String) : Option JsonVal :=
  (fields.find? fun p => p.1 == key).map fun p => p.2

def fieldIsStr (v : Option JsonVal) : Bool :=
  match v with
  | some (.str _) => true
  | _ => false

def fieldIsNum (v : Option JsonVal) : Bool :=
  match v with
  | some (.num _) => true
  | _ => false

def fieldStrIn (vals : List String) (v : Option JsonVal) : Bool :=
  match v with
  | some (.str s) => vals.contains s
  | _ => false

/-- Conformance of one item to careerRecommendationSchema
(gemini.ts: required fields, closed enums for eligibilityStatus and
riskLevel). -/
def conformsRecItem (v : JsonVal) : Bool :=
  match v with
  | .obj fs =>
      fieldIsStr (lookupField fs "careerName") &&
      fieldIsNum (lookupField fs "matchPercentage") &&
      fieldStrIn ["Eligible", "Not Eligible"] (lookupField fs "eligibilityStatus") &&
      fieldStrIn ["Low", "Medium", "High"] (lookupField fs "riskLevel") &&
      fieldIsStr (lookupField fs "shortDescription") &&
      fieldIsStr (lookupField fs "whyItMatches") &&
      fieldIsStr (lookupField fs "parentalAdvice")
  | _ => false

/-- Conformance of a whole document to careerRecommendationSchema
(an array of conforming items). -/
def conformsRecArray (v : JsonVal) : Bool :=
  match v with
  | .arr xs => xs.all conformsRecItem
  | _ => false

namespace Gateway

/-- gemini.ts: the Netlify synchronous execution ceiling stated in the
source comment "Netlify synchronous functions have a hard 10s limit". -/
def NETLIFY_LIMIT_MS : Nat := 10000

/-- gemini.ts (third variant): AI_TIMEOUT_MS = 8000. -/
def AI_TIMEOUT_MS : Nat := 8000

/-- Structured-output schema selector passed to runAI; the schema
contents are declarative (see conformsRecItem for the recommendation
schema constraints). -/
inductive SchemaTag where
  | recommendations
  | details

/-- Body of a Gateway HTTP response: a bare text body, a
JSON.stringify object with an error field, or the capability text
passed through verbatim on the 200 path. -/
inductive RespBody where
  | raw (s : String)
  | jsonErr (msg : String)
  | payload (t : GenText)

/-- Observable result of one handler invocation: status, body, and
whether generateContent was invoked on the capability. -/
structure HandlerResult where
  statusCode : Nat
  body : RespBody
  capInvoked : Bool

/-- The destructured request envelope
(const \x7b action, userData, careerName \x7d = JSON.parse(...)). -/
structure Envelope where
  action : Option String
  userData : Option Profile
  careerName : Option String

/-- The request body as seen by JSON.parse: either parsing throws
(with the given SyntaxError message) or it yields an envelope. -/
inductive RawBody where
  | malformed (errMsg : String)
  | parsed (env : Envelope)

/-- The incoming event: HTTP method and body. -/
structure Event where
  httpMethod : String
  body : RawBody

/-- Error body text when the API key is absent (gemini.ts line 390). -/
def cfgErrMsg : String := "API_KEY missing. Please configure it in Netlify Site Settings."

/-- Friendly message on the 504 path (gemini.ts line 472). -/
def timeoutFriendlyMsg : String := "AI service timed out. Falling back to local guidance."

/-- Friendly message on the 503 path (gemini.ts line 475). -/
def overloadedFriendlyMsg : String := "AI model is currently overloaded. Falling back to local guidance."

/-- Friendly message on the generic 500 path (gemini.ts line 468). -/
def genericFriendlyMsg : String := "The AI advisor is temporarily unavailable."

/-- TypeError message thrown when the prompt template reads
userData.academics while userData is undefined. -/
def undefinedAccessMsg : String := "Cannot read properties of undefined"

/-- The catch-block mapping from a thrown error message to status and
friendly message (gemini.ts lines 464-482). -/
def classify (msg : String) : Nat × String :=
  if msg = "AI_TIMEOUT" then (504, timeoutFriendlyMsg)
  else if containsStr msg "503" || containsStr msg "overloaded" then (503, overloadedFriendlyMsg)
  else (500, genericFriendlyMsg)

/-- Promise.race of the capability call against the AI_TIMEOUT_MS timer
(gemini.ts lines 398-417): if the deadline elapses first the race
rejects with the AI_TIMEOUT marker, otherwise the capability settlement
wins. -/
def runAI (modelName prompt : String) (schema : SchemaTag) (cap : CapBehavior) :
    Except String GenResponse :=
  if AI_TIMEOUT_MS ≤ cap.durationMs then .error "AI_TIMEOUT"
  else
    match cap.outcome with
    | .ok r => .ok r
    | .err m => .error m

/-- The recommendations prompt (gemini.ts lines 420-423). -/
def recPrompt (u : Profile) : String :=
  "Act as an expert Indian Career Counselor. Student Profile: Stream " ++
    u.academics.stream ++ ", Marks " ++ toString u.academics.marks ++
    "%, Interest " ++ u.interests.primary ++
    ". Suggest 3-5 realistic career paths in India. You MUST include REAL career names and specific parental advice. Return strictly valid JSON only."

/-- The details prompt (gemini.ts lines 441-446); interpolating an
undefined careerName prints the text undefined. -/
def detPrompt (careerName : Option String) (u : Profile) : String :=
  "Detailed roadmap for career: " ++ careerName.getD "undefined" ++
    ". Context: " ++ toString u.academics.marks ++
    "% marks. You MUST include: At least 3 REAL colleges in India with city and type. At least 2 REAL Indian scholarships with provider name. Do NOT leave colleges or scholarships empty. Return strictly valid JSON only."

/-- Result of the try block body: a thrown error message or a status
and body, plus whether the capability was invoked. -/
structure TryResult where
  outcome : Except String (Nat × RespBody)
  capInvoked : Bool

/-- The action dispatch inside the try block (gemini.ts lines 419-462):
recommendations and details each build a prompt (throwing if userData is
undefined), race the capability, check the text is nonempty, and pass it
through; any other action yields 400 Invalid Action. -/
def handleParsed (env : Envelope) (cap : CapBehavior) : TryResult :=
  if env.action = some "recommendations" then
    match env.userData with
    | none => ⟨.error undefinedAccessMsg, false⟩
    | some u =>
        match runAI "gemini-3-flash-preview" (recPrompt u) .recommendations cap with
        | .error m => ⟨.error m, true⟩
        | .ok r =>
            match r.text with
            | .missing => ⟨.error "No content returned from Gemini AI.", true⟩
            | t => ⟨.ok (200, .payload t), true⟩
  else if env.action = some "details" then
    match env.userData with
    | none => ⟨.error undefinedAccessMsg, false⟩
    | some u =>
        match runAI "gemini-3-flash-preview" (detPrompt env.careerName u) .details cap with
        | .error m => ⟨.error m, true⟩
        | .ok r =>
            match r.text with
            | .missing => ⟨.error "No content returned from Gemini AI.", true⟩
            | t => ⟨.ok (200, .payload t), true⟩
  else ⟨.ok (400, .jsonErr "Invalid Action"), false⟩

/-- The handler (gemini.ts lines 375-486, third variant): 405 on
non-POST with a bare text body; 500 configuration error when the API key
is absent, before the body is parsed; then JSON.parse of the body and
the action dispatch, with every thrown error routed through classify. -/
def handler (event : Event) (apiKey : Option String) (cap : CapBehavior) : HandlerResult :=
  if event.httpMethod ≠ "POST" then ⟨405, .raw "Method Not Allowed", false⟩
  else
    match apiKey with
    | none => ⟨500, .jsonErr cfgErrMsg, false⟩
    | some _ =>
        match event.body with
        | .malformed errMsg =>
            ⟨(classify errMsg).1, .jsonErr (classify errMsg).2, false⟩
        | .parsed env =>
            match (handleParsed env cap).outcome with
            | .ok res => ⟨res.1, res.2, (handleParsed env cap).capInvoked⟩
            | .error m => ⟨(classify m).1, .jsonErr (classify m).2, (handleParsed env cap).capInvoked⟩

/-- Statement helper: a well-formed POST event carrying the
recommendations envelope for profile p. -/
def recEvent (p : Profile) : Event :=
  ⟨"POST", .parsed ⟨some "recommendations", some p, none⟩⟩

/-- Statement helper: a well-formed POST event carrying the details
envelope for career c and profile p. -/
def detEvent (c : String) (p : Profile) : Event :=
  ⟨"POST", .parsed ⟨some "details", some p, some c⟩⟩

end Gateway

namespace GatewayAlt

/-- The sibling gateway variant (src/unnamed/part_004 line 61, also the
second gemini.ts variant line 214): AI_TIMEOUT_MS = 8500. -/
def AI_TIMEOUT_MS : Nat := 8500

end GatewayAlt

/-- SyntaxError message raised by JSON.parse on a nonempty unparsable
text. -/
def jsonSyntaxErrorMsg (raw : String) : String :=
  "Unexpected token in JSON: " ++ raw

namespace GeminiService

/-- The recommendations prompt (geminiService.ts lines 84-93). -/
def recPrompt (u : Profile) : String :=
  "Analyze this profile and generate 3-5 career recommendations in JSON. Board: " ++
    u.academics.board ++ " Stream: " ++ u.academics.stream ++
    " Subjects: " ++ String.intercalate ", " u.academics.subjects ++
    " Marks: " ++ toString u.academics.marks ++
    "% Skills: " ++ String.intercalate ", " ((u.skills.filter fun p => p.2).map fun p => p.1) ++
    " Interests: " ++ u.interests.primary ++ " State: " ++ u.location.state

/-- getCareerRecommendations (geminiService.ts lines 71-111): one
capability call, then JSON.parse(response.text or the literal empty
array text); the parsed document is returned with no validation, and
any caught error is re-thrown as is. -/
def getCareerRecommendations (userData : Profile) (cap : CapOutcome) :
    Except String JsonVal :=
  match cap with
  | .err m => .error m
  | .ok r =>
      match r.text with
      | .missing => .ok (.arr [])
      | .doc v => .ok v
      | .garbage raw => .error (jsonSyntaxErrorMsg raw)

/-- getCareerDetails (geminiService.ts lines 113-138): same shape with
an empty-object default. -/
def getCareerDetails (careerName : String) (userData : Profile) (cap : CapOutcome) :
    Except String JsonVal :=
  match cap with
  | .err m => .error m
  | .ok r =>
      match r.text with
      | .missing => .ok (.obj [])
      | .doc v => .ok v
      | .garbage raw => .error (jsonSyntaxErrorMsg raw)

end GeminiService

namespace Adapter

/-- part_001 line 9: REQUEST_TIMEOUT = 12000. -/
def REQUEST_TIMEOUT : Nat := 12000

/-- A settled HTTP response as the Adapter sees it. -/
structure HttpResponse where
  status : Nat
  body : Gateway.RespBody

/-- One behaviour of the underlying fetch transport: it either delivers
a response after the given wall-clock duration, or rejects with a
network-level error after the given duration. -/
inductive TransportOutcome where
  | completes (durationMs : Nat) (resp : HttpResponse)
  | netError (durationMs : Nat) (msg : String)

/-- Wall-clock duration of the transport leg. -/
def TransportOutcome.duration : TransportOutcome → Nat
  | .completes d _ => d
  | .netError d _ => d

/-- Result of fetchWithTimeout: the settled value (error = thrown
message) and whether controller.abort() was signalled. -/
structure FetchResult where
  result : Except String HttpResponse
  aborted : Bool

/-- fetchWithTimeout (part_001 lines 11-29): an abort timer fires at
REQUEST_TIMEOUT, turning the in-flight fetch into an AbortError which is
re-thrown as the TIMEOUT error; a transport settlement inside the
deadline clears the timer and is passed through (network rejections are
re-thrown unchanged). -/
def fetchWithTimeout (t : TransportOutcome) : FetchResult :=
  match t with
  | .completes d resp =>
      if REQUEST_TIMEOUT ≤ d then ⟨.error "TIMEOUT", true⟩ else ⟨.ok resp, false⟩
  | .netError d msg =>
      if REQUEST_TIMEOUT ≤ d then ⟨.error "TIMEOUT", true⟩ else ⟨.error msg, false⟩

/-- response.ok: status in the 200 class. -/
def respOk (r : HttpResponse) : Bool :=
  200 ≤ r.status && r.status < 300

/-- response.json() on a Gateway response body: a JSON error body or a
passed-through parsable payload decodes; bare text and unparsable
payloads make JSON.parse throw. -/
def respJson : Gateway.RespBody → Except String JsonVal
  | .raw s => .error (jsonSyntaxErrorMsg s)
  | .jsonErr m => .ok (.obj [("error", .str m)])
  | .payload .missing => .error "Unexpected end of JSON input"
  | .payload (.doc v) => .ok v
  | .payload (.garbage raw) => .error (jsonSyntaxErrorMsg raw)

/-- The error-body recovery on a non-ok response (part_001 lines 40-46):
JSON.parse the error text and take err.error when it is a nonempty
string, falling back to the AI_SERVICE_ERROR default.  (A non-string
error field never arises from the Gateway and is collapsed to the
default.) -/
def errMsgOf (b : Gateway.RespBody) : String :=
  match respJson b with
  | .ok (.obj fs) =>
      match lookupField fs "error" with
      | some (.str s) => if s = "" then "AI_SERVICE_ERROR" else s
      | _ => "AI_SERVICE_ERROR"
  | .ok _ => "AI_SERVICE_ERROR"
  | .error _ => "AI_SERVICE_ERROR"

/-- Observable result of one Adapter operation: the settled value
(error = thrown message) and whether the transport was signalled for
cancellation. -/
structure AdapterOutcome where
  result : Except String JsonVal
  aborted : Bool

/-- getCareerRecommendations (part_001 lines 31-54): POST the
recommendations envelope through fetchWithTimeout; on a non-ok status
throw the recovered error message; otherwise return response.json()
verbatim.  Every thrown error is logged and re-thrown unchanged. -/
def getCareerRecommendations (userData : Profile) (t : TransportOutcome) : AdapterOutcome :=
  match fetchWithTimeout t with
  | ⟨.error m, ab⟩ => ⟨.error m, ab⟩
  | ⟨.ok resp, ab⟩ =>
      if respOk resp then
        match respJson resp.body with
        | .ok v => ⟨.ok v, ab⟩
        | .error m => ⟨.error m, ab⟩
      else ⟨.error (errMsgOf resp.body), ab⟩

/-- getCareerDetails (part_001 lines 56-73): same pattern, but a non-ok
status throws the fixed AI_DETAILS_ERROR message without reading the
error body. -/
def getCareerDetails (careerName : String) (userData : Profile) (t : TransportOutcome) :
    AdapterOutcome :=
  match fetchWithTimeout t with
  | ⟨.error m, ab⟩ => ⟨.error m, ab⟩
  | ⟨.ok resp, ab⟩ =>
      if respOk resp then
        match respJson resp.body with
        | .ok v => ⟨.ok v, ab⟩
        | .error m => ⟨.error m, ab⟩
      else ⟨.error "AI_DETAILS_ERROR", ab⟩

/-- Statement helper: package a Gateway handler result as the HTTP
response the Adapter receives. -/
def toHttp (r : Gateway.HandlerResult) : HttpResponse :=
  ⟨r.statusCode, r.body⟩

end Adapter

/-- Example profile from the specification: Arts stream with 20% marks. -/
def pArts : Profile :=
  ⟨⟨"State Board", "Arts", ["History", "Civics"], 20⟩,
   [("communication", true)], ⟨"Design"⟩, ⟨"Kerala", true⟩⟩

/-- Example profile from the specification: Science-PCB with 78% marks,
interest Medicine, skill empathy. -/
def pPCB : Profile :=
  ⟨⟨"CBSE", "Science-PCB", ["Physics", "Chemistry", "Biology"], 78⟩,
   [("empathy", true)], ⟨"Medicine"⟩, ⟨"Delhi", false⟩⟩

/-- A concrete schema-conforming recommendation item. -/
def mkItem (name : String) (pct : Int) (elig risk : String) : JsonVal :=
  .obj [("careerName", .str name), ("matchPercentage", .num pct),
        ("eligibilityStatus", .str elig), ("riskLevel", .str risk),
        ("shortDescription", .str "short"), ("whyItMatches", .str "fit"),
        ("parentalAdvice", .str "advice")]

/-- The 4-item conforming sequence of the specification example. -/
def items4 : List JsonVal :=
  [mkItem "MBBS Doctor" 92 "Eligible" "Medium",
   mkItem "Nursing" 85 "Eligible" "Low",
   mkItem "Physiotherapy" 78 "Eligible" "Low",
   mkItem "Biotechnology" 70 "Eligible" "Medium"]

/-- A conforming sequence in which every item is Not Eligible. -/
def itemsNE : List JsonVal :=
  [mkItem "Vocational Design" 40 "Not Eligible" "Low",
   mkItem "Fine Arts Diploma" 35 "Not Eligible" "Low"]


/-!
Helper lemmas shared by the claim theorems below.
-/

/-- The catch-block mapping only ever emits one of its three fixed
friendly messages. -/
theorem classify_snd_cases (m : String) :
    (Gateway.classify m).2 = Gateway.timeoutFriendlyMsg ∨
    (Gateway.classify m).2 = Gateway.overloadedFriendlyMsg ∨
    (Gateway.classify m).2 = Gateway.genericFriendlyMsg := by
  unfold Gateway.classify
  split
  · exact Or.inl rfl
  split
  · exact Or.inr (Or.inl rfl)
  · exact Or.inr (Or.inr rfl)

/-- A non-thrown result of the action dispatch carries either the
Invalid Action error body or a passed-through payload body. -/
theorem handleParsed_ok_body (env : Gateway.Envelope) (cap : CapBehavior)
    (res : Nat × Gateway.RespBody)
    (h : (Gateway.handleParsed env cap).outcome = .ok res) :
    res.2 = .jsonErr "Invalid Action" ∨ ∃ t, res.2 = .payload t := by
  unfold Gateway.handleParsed at h
  split at h
  · split at h
    · simp at h
    · split at h
      · simp at h
      · split at h
        · simp at h
        · injection h with h
          subst h
          exact Or.inr ⟨_, rfl⟩
  · split at h
    · split at h
      · simp at h
      · split at h
        · simp at h
        · split at h
          · simp at h
          · injection h with h
            subst h
            exact Or.inr ⟨_, rfl⟩
    · injection h with h
      exact Or.inl (by rw [← h])

/-- Every JSON error body the handler can emit carries one of five
fixed message strings. -/
theorem handler_jsonErr_msgs (e : Gateway.Event) (k : Option String) (cap : CapBehavior)
    (m : String) (h : (Gateway.handler e k cap).body = .jsonErr m) :
    m = Gateway.cfgErrMsg ∨ m = "Invalid Action" ∨ m = Gateway.timeoutFriendlyMsg ∨
      m = Gateway.overloadedFriendlyMsg ∨ m = Gateway.genericFriendlyMsg := by
  unfold Gateway.handler at h
  split at h
  · simp at h
  · split at h
    · simp only [Gateway.RespBody.jsonErr.injEq] at h
      exact Or.inl h.symm
    · split at h
      · simp only [Gateway.RespBody.jsonErr.injEq] at h
        rename_i em hbe
        rcases classify_snd_cases em with hc | hc | hc <;> rw [hc] at h
        · exact Or.inr (Or.inr (Or.inl h.symm))
        · exact Or.inr (Or.inr (Or.inr (Or.inl h.symm)))
        · exact Or.inr (Or.inr (Or.inr (Or.inr h.symm)))
      · split at h
        · rename_i res heq
          rcases handleParsed_ok_body _ _ _ heq with hb | ⟨t, hb⟩
          · simp only [hb, Gateway.RespBody.jsonErr.injEq] at h
            exact Or.inr (Or.inl h.symm)
          · rw [hb] at h; simp at h
        · simp only [Gateway.RespBody.jsonErr.injEq] at h
          rename_i em heq
          rcases classify_snd_cases em with hc | hc | hc <;> rw [hc] at h
          · exact Or.inr (Or.inr (Or.inl h.symm))
          · exact Or.inr (Or.inr (Or.inr (Or.inl h.symm)))
          · exact Or.inr (Or.inr (Or.inr (Or.inr h.symm)))

/-!
Claim theorems.
-/

/-- Claim C1 counterexample: at a concrete well-formed Profile, with the
capability resolving successfully but with empty text,
getCareerRecommendations returns the empty sequence (the parsed default
of the literal empty-array text) instead of a non-empty validated
sequence or a failure. -/
theorem recs_empty_text_returns_empty_sequence :
    GeminiService.getCareerRecommendations pArts (.ok ⟨.missing⟩) = .ok (.arr []) := rfl

/-- Claim C1 (amended): for every well-formed Profile,
getCareerRecommendations returns exactly the document the capability
produced — with no emptiness check and no enum validation, and with the
empty sequence substituted when the capability text is empty — or
re-raises the capability failure (a JSON SyntaxError on unparsable
text, or the capability rejection itself, unnormalized). -/
theorem recs_passthrough_without_validation (p : Profile) (v : JsonVal) (m raw : String) :
    GeminiService.getCareerRecommendations p (.ok ⟨.doc v⟩) = .ok v ∧
    GeminiService.getCareerRecommendations p (.ok ⟨.missing⟩) = .ok (.arr []) ∧
    GeminiService.getCareerRecommendations p (.ok ⟨.garbage raw⟩) =
      .error (jsonSyntaxErrorMsg raw) ∧
    GeminiService.getCareerRecommendations p (.err m) = .error m :=
  ⟨rfl, rfl, rfl, rfl⟩

/-- Claim C2: with no configured credential the Gateway handler returns
the 500 configuration-error response for every request body — including
one JSON.parse would reject — without invoking the external capability;
the response does not depend on the body or the capability, so the check
precedes body parsing. -/
theorem missing_credential_immediate_config_error :
    ∀ (b b' : Gateway.RawBody) (cap cap' : CapBehavior),
      Gateway.handler ⟨"POST", b⟩ none cap =
        ⟨500, .jsonErr Gateway.cfgErrMsg, false⟩ ∧
      Gateway.handler ⟨"POST", b⟩ none cap =
        Gateway.handler ⟨"POST", b'⟩ none cap' := by
  intro b b' cap cap'
  exact ⟨rfl, rfl⟩

/-- Claim C3: the Gateway failure mapping is a three-way partition with
pairwise-distinct statuses — a deadline-elapsed race (regardless of how
the capability would eventually settle) yields 504, a capability
rejection carrying an overload marker yields 503, and every other
failure yields the generic 500, which is in particular the status of a
transport-level capability failure, distinct from the timeout. -/
theorem gateway_failure_three_way_partition (k : String) (p : Profile) (d : Nat)
    (msg : String) :
    (Gateway.AI_TIMEOUT_MS ≤ d → ∀ out : CapOutcome,
        (Gateway.handler (Gateway.recEvent p) (some k) ⟨d, out⟩).statusCode = 504) ∧
    (d < Gateway.AI_TIMEOUT_MS →
      (containsStr msg "503" || containsStr msg "overloaded") = true →
        (Gateway.handler (Gateway.recEvent p) (some k) ⟨d, .err msg⟩).statusCode = 503) ∧
    (d < Gateway.AI_TIMEOUT_MS → msg ≠ "AI_TIMEOUT" →
      (containsStr msg "503" || containsStr msg "overloaded") = false →
        (Gateway.handler (Gateway.recEvent p) (some k) ⟨d, .err msg⟩).statusCode = 500) ∧
    ((504 : Nat) ≠ 503 ∧ (504 : Nat) ≠ 500 ∧ (503 : Nat) ≠ 500) := by
  refine ⟨?_, ?_, ?_, by decide, by decide, by decide⟩
  · intro hd out
    simp [Gateway.handler, Gateway.recEvent, Gateway.handleParsed, Gateway.runAI,
      Gateway.classify, hd]
  · intro hd hov
    have hnle : ¬ (Gateway.AI_TIMEOUT_MS ≤ d) := Nat.not_le.mpr hd
    have hne : msg ≠ "AI_TIMEOUT" := by
      intro h; rw [h] at hov; exact absurd hov (by decide)
    simp [Gateway.handler, Gateway.recEvent, Gateway.handleParsed, Gateway.runAI,
      Gateway.classify, hnle, hne, hov]
  · intro hd hne hov
    have hnle : ¬ (Gateway.AI_TIMEOUT_MS ≤ d) := Nat.not_le.mpr hd
    simp [Gateway.handler, Gateway.recEvent, Gateway.handleParsed, Gateway.runAI,
      Gateway.classify, hnle, hne, hov]

/-- Witness for C3: concrete runs land on 504, 503 and 500. -/
theorem gateway_failure_three_way_partition_witness :
    (Gateway.handler (Gateway.recEvent pArts) (some "key") ⟨9000, .err "late"⟩).statusCode
        = 504 ∧
    (Gateway.handler (Gateway.recEvent pArts) (some "key")
        ⟨100, .err "model overloaded"⟩).statusCode = 503 ∧
    (Gateway.handler (Gateway.recEvent pArts) (some "key")
        ⟨100, .err "ECONNREFUSED"⟩).statusCode = 500 :=
  ⟨(gateway_failure_three_way_partition "key" pArts 9000 "late").1 (by decide) (.err "late"),
   (gateway_failure_three_way_partition "key" pArts 100 "model overloaded").2.1
     (by decide) (by decide),
   (gateway_failure_three_way_partition "key" pArts 100 "ECONNREFUSED").2.2.1
     (by decide) (by decide) (by decide)⟩

/-- Claim C4 counterexample: a concrete POST request whose body
JSON.parse rejects is answered with status 500, not a 400-class
status. -/
theorem malformed_body_surfaces_as_500 :
    (Gateway.handler ⟨"POST", .malformed "Unexpected token x in JSON at position 0"⟩
        (some "key") ⟨100, .ok ⟨.missing⟩⟩).statusCode = 500 ∧
    (Gateway.handler ⟨"POST", .malformed "Unexpected token x in JSON at position 0"⟩
        (some "key") ⟨100, .ok ⟨.missing⟩⟩).statusCode ≠ 400 :=
  ⟨rfl, by decide⟩

/-- Claim C4 (amended): a request body that cannot be decoded is routed
through the generic catch-all and surfaces as the generic 500 failure
response (for every parse-error text free of the timeout and overload
markers), never reaching the 400 class that invalid action uses, and
without invoking the capability. -/
theorem malformed_body_generic_failure (k errMsg : String) (cap : CapBehavior)
    (h1 : errMsg ≠ "AI_TIMEOUT")
    (h2 : (containsStr errMsg "503" || containsStr errMsg "overloaded") = false) :
    Gateway.handler ⟨"POST", .malformed errMsg⟩ (some k) cap =
      ⟨500, .jsonErr Gateway.genericFriendlyMsg, false⟩ := by
  simp [Gateway.handler, Gateway.classify, h1, h2]

/-- Witness for the amended C4 at a concrete unparsable body. -/
theorem malformed_body_generic_failure_witness :
    Gateway.handler ⟨"POST", .malformed "Unexpected end of JSON input"⟩ (some "key")
        ⟨100, .ok ⟨.missing⟩⟩ = ⟨500, .jsonErr Gateway.genericFriendlyMsg, false⟩ :=
  malformed_body_generic_failure "key" "Unexpected end of JSON input" _
    (by decide) (by decide)

/-- Claim C5: a parsed request whose action is missing or neither
recommendations nor details is answered 400 Invalid Action and the
external capability is never invoked. -/
theorem invalid_action_400_capability_not_invoked (env : Gateway.Envelope) (k : String)
    (cap : CapBehavior)
    (h1 : env.action ≠ some "recommendations") (h2 : env.action ≠ some "details") :
    Gateway.handler ⟨"POST", .parsed env⟩ (some k) cap =
      ⟨400, .jsonErr "Invalid Action", false⟩ := by
  simp [Gateway.handler, Gateway.handleParsed, h1, h2]

/-- Witness for C5: a concrete unrecognized action. -/
theorem invalid_action_400_witness :
    Gateway.handler ⟨"POST", .parsed ⟨some "frobnicate", some pArts, none⟩⟩ (some "key")
        ⟨100, .ok ⟨.missing⟩⟩ = ⟨400, .jsonErr "Invalid Action", false⟩ :=
  invalid_action_400_capability_not_invoked _ "key" _ (by decide) (by decide)

/-- Claim C6 counterexample: with the capability resolving with empty
text, the concrete handler response is literally identical to the
response for an unrelated transport-level failure — the generic 500 —
so no distinct EmptyResponse outcome exists; and a nonempty unparsable
payload is not a failure at all but a 200. -/
theorem empty_payload_indistinct_counterexample :
    Gateway.handler (Gateway.recEvent pArts) (some "key") ⟨100, .ok ⟨.missing⟩⟩ =
      Gateway.handler (Gateway.recEvent pArts) (some "key") ⟨100, .err "ECONNRESET"⟩ ∧
    (Gateway.handler (Gateway.recEvent pArts) (some "key")
        ⟨100, .ok ⟨.missing⟩⟩).statusCode = 500 ∧
    (Gateway.handler (Gateway.recEvent pArts) (some "key")
        ⟨100, .ok ⟨.garbage "not json"⟩⟩).statusCode = 200 :=
  ⟨rfl, rfl, rfl⟩

/-- Claim C6 (amended): for both actions, an empty capability text
yields a failure response — the generic 500 with the standard message,
not a crash and not a 200 — but one indistinguishable from other
generic failures; a nonempty unparsable text is passed through as a 200
success. -/
theorem empty_payload_generic_unparsable_passthrough (k c : String) (p : Profile)
    (d : Nat) (hd : d < Gateway.AI_TIMEOUT_MS) :
    Gateway.handler (Gateway.recEvent p) (some k) ⟨d, .ok ⟨.missing⟩⟩ =
      ⟨500, .jsonErr Gateway.genericFriendlyMsg, true⟩ ∧
    Gateway.handler (Gateway.detEvent c p) (some k) ⟨d, .ok ⟨.missing⟩⟩ =
      ⟨500, .jsonErr Gateway.genericFriendlyMsg, true⟩ ∧
    ∀ raw, Gateway.handler (Gateway.recEvent p) (some k) ⟨d, .ok ⟨.garbage raw⟩⟩ =
      ⟨200, .payload (.garbage raw), true⟩ := by
  have hnle : ¬ (Gateway.AI_TIMEOUT_MS ≤ d) := Nat.not_le.mpr hd
  refine ⟨?_, ?_, ?_⟩
  · simp [Gateway.handler, Gateway.recEvent, Gateway.handleParsed, Gateway.runAI,
      Gateway.classify, hnle]
    decide
  · simp [Gateway.handler, Gateway.detEvent, Gateway.handleParsed, Gateway.runAI,
      Gateway.classify, hnle]
    decide
  · intro raw
    simp [Gateway.handler, Gateway.recEvent, Gateway.handleParsed, Gateway.runAI, hnle]

/-- Witness for the amended C6 at a concrete fast capability run. -/
theorem empty_payload_generic_witness :
    Gateway.handler (Gateway.recEvent pPCB) (some "key") ⟨250, .ok ⟨.missing⟩⟩ =
      ⟨500, .jsonErr Gateway.genericFriendlyMsg, true⟩ :=
  (empty_payload_generic_unparsable_passthrough "key" "Doctor" pPCB 250 (by decide)).1

/-- Claim C7: both Adapter operations run under the 12-second deadline
REQUEST_TIMEOUT; whenever the transport leg reaches that deadline the
abort signal fires, the in-flight transport is cancelled and both
operations fail with the TIMEOUT error — a message the Gateway can never
place in a JSON error body, so the condition is distinct from every
Gateway-reported error. -/
theorem adapter_timeout_aborts_and_distinct (p : Profile) (c : String)
    (t : Adapter.TransportOutcome) (h : Adapter.REQUEST_TIMEOUT ≤ t.duration) :
    Adapter.getCareerRecommendations p t = ⟨.error "TIMEOUT", true⟩ ∧
    Adapter.getCareerDetails c p t = ⟨.error "TIMEOUT", true⟩ ∧
    Adapter.REQUEST_TIMEOUT = 12000 ∧
    ∀ (e : Gateway.Event) (k : Option String) (cap : CapBehavior) (m : String),
      (Gateway.handler e k cap).body = .jsonErr m → m ≠ "TIMEOUT" := by
  have hf : Adapter.fetchWithTimeout t = ⟨.error "TIMEOUT", true⟩ := by
    cases t with
    | completes d r =>
        have hd : Adapter.REQUEST_TIMEOUT ≤ d := h
        simp [Adapter.fetchWithTimeout, hd]
    | netError d m =>
        have hd : Adapter.REQUEST_TIMEOUT ≤ d := h
        simp [Adapter.fetchWithTimeout, hd]
  refine ⟨?_, ?_, rfl, ?_⟩
  · unfold Adapter.getCareerRecommendations
    rw [hf]
  · unfold Adapter.getCareerDetails
    rw [hf]
  · intro e k cap m hm
    rcases handler_jsonErr_msgs e k cap m hm with h1 | h1 | h1 | h1 | h1 <;>
      subst h1 <;> decide

/-- Witness for C7: a transport leg of 13 seconds is aborted and both
operations reject with TIMEOUT. -/
theorem adapter_timeout_witness :
    Adapter.getCareerRecommendations pArts (.netError 13000 "socket hang up") =
      ⟨.error "TIMEOUT", true⟩ ∧
    Adapter.getCareerDetails "Doctor" pArts (.netError 13000 "socket hang up") =
      ⟨.error "TIMEOUT", true⟩ :=
  ⟨(adapter_timeout_aborts_and_distinct pArts "Doctor" (.netError 13000 "socket hang up")
      (by decide)).1,
   (adapter_timeout_aborts_and_distinct pArts "Doctor" (.netError 13000 "socket hang up")
      (by decide)).2.1⟩

/-- Claim C8: both observed Gateway capability deadlines (8000 and 8500
ms) are strictly below the Adapter round-trip deadline (12000 ms), and
each sits 1.5 to 2 seconds below the 10-second platform execution
ceiling. -/
theorem timeout_constants_ordering :
    Gateway.AI_TIMEOUT_MS < Adapter.REQUEST_TIMEOUT ∧
    GatewayAlt.AI_TIMEOUT_MS < Adapter.REQUEST_TIMEOUT ∧
    Gateway.AI_TIMEOUT_MS + 1500 ≤ Gateway.NETLIFY_LIMIT_MS ∧
    Gateway.NETLIFY_LIMIT_MS ≤ Gateway.AI_TIMEOUT_MS + 2000 ∧
    GatewayAlt.AI_TIMEOUT_MS + 1500 ≤ Gateway.NETLIFY_LIMIT_MS ∧
    Gateway.NETLIFY_LIMIT_MS ≤ GatewayAlt.AI_TIMEOUT_MS + 2000 := by
  decide

/-- Claim C9: when the capability answers the recommendations request
inside the Gateway deadline with a document that is a conforming
RecommendationItem sequence, and the transport completes inside the
Adapter deadline, the Adapter resolves with exactly that sequence — no
reordering, no filtering, no local eligibility re-evaluation — and no
abort is signalled. -/
theorem adapter_returns_sequence_unmodified (p : Profile) (k : String)
    (items : List JsonVal) (capD tD : Nat)
    (h1 : capD < Gateway.AI_TIMEOUT_MS) (h2 : tD < Adapter.REQUEST_TIMEOUT)
    (h3 : conformsRecArray (.arr items) = true) :
    Adapter.getCareerRecommendations p
      (.completes tD (Adapter.toHttp
        (Gateway.handler (Gateway.recEvent p) (some k)
          ⟨capD, .ok ⟨.doc (.arr items)⟩⟩))) =
      ⟨.ok (.arr items), false⟩ := by
  have hnle : ¬ (Gateway.AI_TIMEOUT_MS ≤ capD) := Nat.not_le.mpr h1
  have hh : Gateway.handler (Gateway.recEvent p) (some k)
      ⟨capD, .ok ⟨.doc (.arr items)⟩⟩ = ⟨200, .payload (.doc (.arr items)), true⟩ := by
    simp [Gateway.handler, Gateway.recEvent, Gateway.handleParsed, Gateway.runAI, hnle]
  rw [hh]
  have hnle2 : ¬ (Adapter.REQUEST_TIMEOUT ≤ tD) := Nat.not_le.mpr h2
  simp [Adapter.getCareerRecommendations, Adapter.fetchWithTimeout, Adapter.toHttp,
    Adapter.respOk, Adapter.respJson, hnle2]

/-- Witness for C9: the all-Not-Eligible conforming sequence of the
specification example comes back through the full pipeline unmodified. -/
theorem adapter_returns_sequence_unmodified_witness :
    conformsRecArray (.arr itemsNE) = true ∧
    Adapter.getCareerRecommendations pArts
      (.completes 300 (Adapter.toHttp
        (Gateway.handler (Gateway.recEvent pArts) (some "key")
          ⟨2000, .ok ⟨.doc (.arr itemsNE)⟩⟩))) =
      ⟨.ok (.arr itemsNE), false⟩ :=
  ⟨rfl, adapter_returns_sequence_unmodified pArts "key" itemsNE 2000 300
    (by decide) (by decide) rfl⟩

/-- Claim C10: a non-POST request is answered 405 with the bare text
body Method Not Allowed — identically for every credential presence,
body and capability behaviour, hence before the credential check and
before parsing — the capability is not invoked, 405 is outside the
enumerated failure statuses, and the body is not a JSON error object. -/
theorem non_post_method_405 (m : String) (hm : m ≠ "POST") (b : Gateway.RawBody)
    (k : Option String) (cap : CapBehavior) :
    Gateway.handler ⟨m, b⟩ k cap = ⟨405, .raw "Method Not Allowed", false⟩ ∧
    (405 : Nat) ∉ ([400, 500, 503, 504] : List Nat) ∧
    ∀ s, (Gateway.RespBody.raw "Method Not Allowed") ≠ .jsonErr s := by
  refine ⟨by simp [Gateway.handler, hm], by decide,
    fun s h => Gateway.RespBody.noConfusion h⟩

/-- Witness for C10: a concrete GET request. -/
theorem non_post_method_405_witness :
    Gateway.handler ⟨"GET", .parsed ⟨none, none, none⟩⟩ none ⟨0, .err "x"⟩ =
      ⟨405, .raw "Method Not Allowed", false⟩ :=
  (non_post_method_405 "GET" (by decide) _ _ _).1
